import Mathlib

/-!
Shallow embedding of the Garden-mart catalog bot (`src/main.py`):
the catalog snapshot store (`load_products` / `save_products_atomic` /
`next_id`), the GitHub mirror client (`github_update_file`), the
attachment-ingestion path of the `/product_add` command, and the
removal selection workflow (`ProductRemoveSelect.callback`,
`product_remove`).

External effects (HTTP responses, disk failures, the clock) are passed
in as explicit parameters, and the effects the code performs (files
written, remote writes submitted) are returned as explicit fields of
the outcome, so every function is pure and executable.
-/

namespace GardenMart

/-- A catalog record. In `main.py` products are JSON dicts always built
with exactly these keys (`product_add` lines 246-252); dict lookups
`p.get("id", 0)` etc. therefore read these fields. -/
structure Product where
  id : Nat
  name : String
  price : String
  category : String
  image : String
deriving Repr, DecidableEq

/-- `next_id(products)` (main.py lines 68-71): `1` for an empty list,
otherwise Python's `max` over the ids, plus one.  `max` over a nonempty
sequence is a left fold of binary max over the tail starting at the head. -/
def nextId (products : List Product) : Nat :=
  match products with
  | [] => 1
  | p :: rest => (rest.map Product.id).foldl Nat.max p.id + 1

/-- The list comprehension `[p for p in products if p.get("id") != product_id]`
used by `ProductRemoveSelect.callback` (main.py line 373). -/
def removeById (products : List Product) (pid : Nat) : List Product :=
  products.filter (fun p => ¬ (p.id == pid))

/- ### JSON serialization (`json.dumps(products, ensure_ascii=False, indent=2)`) -/

/-- Lower-case hex digit, as produced by `json.dumps` `\uXXXX` escapes. -/
def hexDigit (n : Nat) : Char :=
  if n < 10 then Char.ofNat (48 + n) else Char.ofNat (87 + n)

/-- Escaping of one character inside a JSON string, following
`json.dumps` with `ensure_ascii=False`: quote, backslash and control
characters are escaped, everything else is kept verbatim. -/
def jsonEscapeChar (c : Char) : String :=
  if c = '"' then "\\\""
  else if c = '\\' then "\\\\"
  else if c = '\n' then "\\n"
  else if c = '\t' then "\\t"
  else if c = '\r' then "\\r"
  else if c = Char.ofNat 8 then "\\b"
  else if c = Char.ofNat 12 then "\\f"
  else if c.toNat < 32 then
    "\\u00" ++ String.mk [hexDigit (c.toNat / 16), hexDigit (c.toNat % 16)]
  else String.singleton c

def jsonString (s : String) : String :=
  "\"" ++ String.join (s.data.map jsonEscapeChar) ++ "\""

/-- One product object as rendered by `json.dumps(..., indent=2)` at
nesting depth one (keys indented four spaces, closing brace two). -/
def serializeProduct (p : Product) : String :=
  "\x7b\n    \"id\": " ++ toString p.id
  ++ ",\n    \"name\": " ++ jsonString p.name
  ++ ",\n    \"price\": " ++ jsonString p.price
  ++ ",\n    \"category\": " ++ jsonString p.category
  ++ ",\n    \"image\": " ++ jsonString p.image
  ++ "\n  \x7d"

/-- `json.dumps(products, ensure_ascii=False, indent=2)` (main.py line 54). -/
def serializeProducts (ps : List Product) : String :=
  match ps with
  | [] => "[]"
  | _ => "[\n  " ++ String.intercalate ",\n  " (ps.map serializeProduct) ++ "\n]"

/- ### The local filesystem and `save_products_atomic` -/

/-- The local filesystem: each path maps to the file's content, or
`none` if the file does not exist. -/
def FS : Type := String → Option String

def fsUpdate (fs : FS) (p : String) (v : Option String) : FS :=
  fun q => if q = p then v else fs q

structure SaveOutcome where
  /-- `true` when the function returned normally, `false` when it
  re-raised the exception to the caller. -/
  ok : Bool
  fs : FS

/-- `save_products_atomic(products, path)` (main.py lines 53-66).
`tmp` is the fresh name issued by `tempfile.mkstemp(dir=dirpath)`;
`writeFails` / `replaceFails` say whether the `f.write(data)` or the
`os.replace(tmp, path)` step raises.  The steps, in source order:
`mkstemp` creates the temp file in the target's directory; the full
serialized snapshot is written to it; `os.replace` atomically renames
it over `path`.  On an exception the `except` block removes the temp
file and re-raises. -/
def saveProductsAtomic (fs : FS) (products : List Product) (path tmp : String)
    (writeFails replaceFails : Bool) : SaveOutcome :=
  let data := serializeProducts products
  let fs1 := fsUpdate fs tmp (some "")
  if writeFails then
    ⟨false, fsUpdate fs1 tmp none⟩
  else
    let fs2 := fsUpdate fs1 tmp (some data)
    if replaceFails then
      ⟨false, fsUpdate fs2 tmp none⟩
    else
      ⟨true, fsUpdate (fsUpdate fs2 tmp none) path (some data)⟩

/- ### GitHub mirror client (`github_update_file`) -/

/-- Python truthiness of an optional string: `None` and `""` are falsy
(`if not token`, `if sha` in main.py lines 79 and 105). -/
def strTruthy : Option String → Bool
  | none => false
  | some s => ¬ s.isEmpty

structure GHResult where
  ok : Bool
  info : String
  /-- whether the `requests.put` was submitted at all -/
  putCalled : Bool
  /-- the `sha` field of the PUT payload, `none` when absent (a create) -/
  putSha : Option String
deriving Repr, DecidableEq

/-- The tail of `github_update_file` from line 99 on: build the payload
(attaching `sha` only when truthy) and submit the PUT; 200/201 is
success, anything else returns a descriptive failure. -/
def ghPut (sha : Option String) (putStatus : Nat) (putText : String) : GHResult :=
  let payloadSha := if strTruthy sha then sha else none
  if putStatus == 200 || putStatus == 201 then
    ⟨true, putText, true, payloadSha⟩
  else
    ⟨false, s!"GitHub PUT returned {putStatus}: {putText}", true, payloadSha⟩

/-- `github_update_file` (main.py lines 74-112).  The HTTP collaborator
is passed in: `getStatus` is the GET status code, `getShaBody` the
result of `get_resp.json().get("sha")` (`none` when the body yields no
sha, including a JSON parse failure — the bare `except: pass`), and
`putStatus`/`putText` describe the PUT response.  Early return when the
token is falsy; a 200 GET captures the sha; any status other than 200
and 404 is a hard failure before the PUT; 404 proceeds with no sha. -/
def githubUpdateFile (token : Option String) (getStatus : Nat)
    (getShaBody : Option String) (getText : String)
    (putStatus : Nat) (putText : String) : GHResult :=
  if strTruthy token = false then
    ⟨false, "No GitHub token provided.", false, none⟩
  else if getStatus == 200 then
    ghPut getShaBody putStatus putText
  else if ¬ (getStatus == 404) then
    ⟨false, s!"GitHub GET returned {getStatus}: {getText}", false, none⟩
  else
    ghPut none putStatus putText

/- ### Attachment ingestion (`/product_add`) -/

/-- A Discord attachment as `product_add` consumes it: the declared
`size` attribute, the `filename`, the payload bytes returned by
`image.read()`, and the Discord CDN `url`. -/
structure Attachment where
  size : Nat
  filename : String
  content : List Nat
  url : String
deriving Repr, DecidableEq

/-- Python truthiness of the `image` parameter (`if not image`, main.py
line 191).  `discord.Attachment` defines neither `__bool__` nor
`__len__`, so an attachment object is always truthy; the branch can
only fire if the argument were absent, which the required slash-command
option rules out. -/
def attachmentTruthy (_ : Attachment) : Bool := true

/-- `max_size = 5 * 1024 * 1024` (main.py line 200). -/
def maxSize : Nat := 5 * 1024 * 1024

/-- `ALLOWED_EXT` (main.py line 183). -/
def ALLOWED_EXT : List String := [".png", ".jpg", ".jpeg", ".webp", ".gif"]

/-- The "file too large" embed text (main.py line 204):
`f"Image is {image.size} bytes — max allowed is {max_size} bytes."` -/
def tooLargeMsg (size : Nat) : String :=
  "Image is " ++ toString size ++ " bytes — max allowed is "
    ++ toString maxSize ++ " bytes."

/-- The "invalid file type" embed text (main.py line 214):
`f"Allowed extensions: {', '.join(sorted(ALLOWED_EXT))}"`; `sorted` puts
the five extensions in ascending string order. -/
def invalidTypeMsg : String :=
  "Allowed extensions: "
    ++ String.intercalate ", " [".gif", ".jpeg", ".jpg", ".png", ".webp"]

/-- The extension part of `os.path.splitext` on a bare filename: the
suffix starting at the last dot, unless every character before that dot
is itself a dot (leading dots never start an extension). -/
def splitextExt (s : String) : String :=
  let rev := s.data.reverse
  let afterRev := rev.takeWhile (fun c => ¬ (c = '.'))
  if afterRev.length = rev.length then ""
  else
    let beforeRev := rev.drop (afterRev.length + 1)
    if beforeRev.all (fun c => c = '.') then ""
    else String.mk ('.' :: afterRev.reverse)

/-- `str.lower()`, character by character (ASCII case mapping; non-ASCII
case folding is not modelled — no claim depends on it). -/
def strLower (s : String) : String := String.mk (s.data.map Char.toLower)

/-- `str.strip()`: drop whitespace from both ends. -/
def strStrip (s : String) : String :=
  String.mk (((s.data.dropWhile Char.isWhitespace).reverse.dropWhile Char.isWhitespace).reverse)

/-- ASCII reading of the `re` word class `\w` used in
`sanitize_filename` (non-ASCII word characters are not modelled; no
claim depends on them). -/
def isWordChar (c : Char) : Bool :=
  c.isAlphanum || c = '_'

/-- `re.sub(r"\s+", "_", name)`: every maximal whitespace run becomes a
single underscore.  The boolean argument tracks whether the previous
character was part of a whitespace run. -/
def squeezeWsAux : List Char → Bool → List Char
  | [], _ => []
  | c :: rest, inRun =>
    if c.isWhitespace then
      if inRun then squeezeWsAux rest true
      else '_' :: squeezeWsAux rest true
    else c :: squeezeWsAux rest false

/-- `sanitize_filename(name)` (main.py lines 176-181): strip, collapse
whitespace to `_`, drop characters outside `[\w\-.]`, and fall back to
the current Unix time rendered as a string when nothing survives. -/
def sanitizeFilename (name : String) (now : Nat) : String :=
  let trimmed := strStrip name
  let collapsed := String.mk (squeezeWsAux trimmed.data false)
  let cleaned :=
    String.mk (collapsed.data.filter (fun c => isWordChar c || c = '-' || c = '.'))
  if cleaned = "" then toString now else cleaned

/-- `.lstrip("./")` (main.py line 245): drop leading characters drawn
from the set `{'.', '/'}`. -/
def lstripDotSlash (s : String) : String :=
  String.mk (s.data.dropWhile (fun c => c = '.' || c = '/'))

/-- The filename built at main.py line 225:
`f"{safe_name}_{int(time.time())}{ext}"`. -/
def madeFilename (name : String) (now : Nat) (ext : String) : String :=
  sanitizeFilename name now ++ "_" ++ toString now ++ ext

/-- The stored image reference built at main.py line 245:
`str(IMAGES_DIR.as_posix() + "/" + filename).lstrip("./")`. -/
def localRelPath (filename : String) : String :=
  lstripDotSlash ("images/" ++ filename)

inductive AddResponse
  | missingImage
  | fileTooLarge (msg : String)
  | invalidFileType (msg : String)
  | imageSaveFailed
  | productSaveFailed
  | productAdded (newId : Nat) (thumbUrl : String)
deriving Repr, DecidableEq

structure AddOutcome where
  response : AddResponse
  /-- the stored snapshot after the call (the authority, `products.json`) -/
  products : List Product
  /-- whether the attachment bytes were written under `images/` -/
  imageWritten : Bool
  /-- whether `github_update_file` was invoked for the image -/
  ghImageAttempted : Bool
  /-- whether `github_update_file` was invoked for `products.json` -/
  ghProductsAttempted : Bool
deriving Repr, DecidableEq

/-- `/product_add` (main.py lines 189-332) as a state transformer on the
stored snapshot `st`.  Effect parameters: `now` is `int(time.time())`,
`imageSaveFails` says whether writing the attachment under `images/`
raises, `saveFails` whether `save_products_atomic` raises, `ghConfigured`
whether `GITHUB_TOKEN and GITHUB_OWNER and GITHUB_REPO` are all set, and
`ghImageOk` whether the image mirror call returns success.  Steps, in
source order: attachment truthiness check; size ceiling; extension
allow-list on the lowercased filename; write the bytes locally; build
the record with `next_id` and append it; `save_products_atomic`; then —
only if that save succeeded — the two GitHub mirror calls and the
thumbnail fallback (raw GitHub URL when the image upload succeeded,
else the Discord CDN URL). -/
def productAdd (st : List Product) (image : Attachment)
    (name price category : String) (now : Nat)
    (imageSaveFails saveFails : Bool)
    (ghConfigured ghImageOk : Bool)
    (owner repo branch : String) : AddOutcome :=
  if attachmentTruthy image = false then
    ⟨.missingImage, st, false, false, false⟩
  else if image.size > maxSize then
    ⟨.fileTooLarge (tooLargeMsg image.size), st, false, false, false⟩
  else
    let ext := splitextExt (strLower image.filename)
    if ¬ (ext ∈ ALLOWED_EXT) then
      ⟨.invalidFileType invalidTypeMsg, st, false, false, false⟩
    else
      let filename := madeFilename name now ext
      if imageSaveFails then
        ⟨.imageSaveFailed, st, false, false, false⟩
      else
        let newProduct : Product :=
          ⟨nextId st, name, price, category, localRelPath filename⟩
        let products2 := st ++ [newProduct]
        if saveFails then
          ⟨.productSaveFailed, st, true, false, false⟩
        else
          let rawUrl :=
            "https://raw.githubusercontent.com/" ++ owner ++ "/" ++ repo
              ++ "/" ++ branch ++ "/images/" ++ filename
          let thumb := if ghConfigured && ghImageOk then rawUrl else image.url
          ⟨.productAdded (nextId st) thumb, products2, true,
            ghConfigured, ghConfigured⟩

/- ### Removal selection workflow -/

inductive RemoveResponse
  | notFound
  | deleteFailed
  | removed (pid : Nat)
deriving Repr, DecidableEq

structure RemoveOutcome where
  response : RemoveResponse
  products : List Product
  /-- whether `save_products_atomic` was invoked -/
  saveCalled : Bool
  /-- whether `github_update_file` was invoked for `products.json` -/
  ghAttempted : Bool
deriving Repr, DecidableEq

/-- `ProductRemoveSelect.callback` (main.py lines 361-417) as a state
transformer on the stored snapshot `st`: reload the snapshot, look the
chosen id up with `next(...)`, terminate with the Not-found embed when
it is gone (no save on that path), otherwise filter it out and save;
a save failure aborts before any GitHub call. -/
def productRemoveCallback (st : List Product) (pid : Nat)
    (saveFails ghConfigured : Bool) : RemoveOutcome :=
  match st.find? (fun p => p.id == pid) with
  | none => ⟨.notFound, st, false, false⟩
  | some _ =>
    let newProducts := removeById st pid
    if saveFails then ⟨.deleteFailed, st, true, false⟩
    else ⟨.removed pid, newProducts, true, ghConfigured⟩

/-- The candidate list offered by `/product_remove` (main.py lines
436-438): the snapshot sorted ascending by id, truncated to the first
25 entries. -/
def productRemoveOffered (st : List Product) : List Product :=
  (st.mergeSort (fun a b => a.id ≤ b.id)).take 25

/-!
## Theorems
-/

lemma le_foldl_max (l : List Nat) (a b : Nat) (h : b ≤ a ∨ b ∈ l) :
    b ≤ l.foldl Nat.max a := by
  induction l generalizing a with
  | nil => simpa using h
  | cons x xs ih =>
    rw [List.foldl_cons]
    rcases h with h | h
    · exact ih _ (Or.inl (le_trans h (Nat.le_max_left a x)))
    · rcases List.mem_cons.mp h with rfl | h
      · exact ih _ (Or.inl (Nat.le_max_right a b))
      · exact ih _ (Or.inr h)

lemma foldl_max_attained (l : List Nat) (a : Nat) :
    l.foldl Nat.max a = a ∨ l.foldl Nat.max a ∈ l := by
  induction l generalizing a with
  | nil => exact Or.inl rfl
  | cons x xs ih =>
    rw [List.foldl_cons]
    rcases ih (Nat.max a x) with h | h
    · have hch : Nat.max a x = a ∨ Nat.max a x = x := by
        by_cases hax : a ≤ x
        · exact Or.inr (Nat.max_eq_right hax)
        · exact Or.inl (Nat.max_eq_left (Nat.le_of_not_le hax))
      rcases hch with hm | hm
      · exact Or.inl (by rw [h, hm])
      · exact Or.inr (by rw [h, hm]; exact List.mem_cons_self x xs)
    · exact Or.inr (List.mem_cons_of_mem x h)

lemma nextId_gt (ps : List Product) (q : Product) (hq : q ∈ ps) :
    q.id < nextId ps := by
  match ps with
  | [] => exact absurd hq (List.not_mem_nil q)
  | p :: rest =>
    have hle : q.id ≤ (rest.map Product.id).foldl Nat.max p.id := by
      rcases List.mem_cons.mp hq with rfl | h
      · exact le_foldl_max _ _ _ (Or.inl le_rfl)
      · exact le_foldl_max _ _ _ (Or.inr (List.mem_map_of_mem Product.id h))
    simpa [nextId] using Nat.lt_succ_of_le hle

lemma nextId_attained (ps : List Product) (h : ps ≠ []) :
    ∃ q ∈ ps, nextId ps = q.id + 1 := by
  match ps with
  | [] => exact absurd rfl h
  | p :: rest =>
    rcases foldl_max_attained (rest.map Product.id) p.id with hm | hm
    · exact ⟨p, List.mem_cons_self p rest, by simp [nextId, hm]⟩
    · rcases List.mem_map.mp hm with ⟨q, hq, hqid⟩
      exact ⟨q, List.mem_cons_of_mem p hq, by simp [nextId, ← hqid]⟩

/-- C9 (confirmed): `next_id` returns 1 on the empty snapshot; on a
nonempty snapshot it returns a value strictly greater than every
existing id and equal to some existing id plus one — i.e. the maximum
existing id plus one; on `[(id:5),(id:2)]` it returns 6. -/
theorem c9_nextId_spec :
    nextId [] = 1
    ∧ (∀ ps : List Product, ps ≠ [] →
        (∀ q ∈ ps, q.id < nextId ps) ∧ ∃ q ∈ ps, nextId ps = q.id + 1)
    ∧ nextId [⟨5, "a", "1", "c", "i"⟩, ⟨2, "b", "2", "d", "j"⟩] = 6 := by
  refine ⟨rfl, fun ps h => ⟨fun q hq => nextId_gt ps q hq, nextId_attained ps h⟩, by decide⟩

theorem c9_nextId_spec_witness :
    ([⟨5, "a", "1", "c", "i"⟩, ⟨2, "b", "2", "d", "j"⟩] : List Product) ≠ []
    ∧ ((∀ q ∈ ([⟨5, "a", "1", "c", "i"⟩, ⟨2, "b", "2", "d", "j"⟩] : List Product),
          q.id < nextId [⟨5, "a", "1", "c", "i"⟩, ⟨2, "b", "2", "d", "j"⟩])
        ∧ ∃ q ∈ ([⟨5, "a", "1", "c", "i"⟩, ⟨2, "b", "2", "d", "j"⟩] : List Product),
            nextId [⟨5, "a", "1", "c", "i"⟩, ⟨2, "b", "2", "d", "j"⟩] = q.id + 1) :=
  ⟨by decide, c9_nextId_spec.2.1 _ (by decide)⟩

/-- C1 counterexample: on the snapshot `[(id:1),(id:2)]`, deleting the
record with id 2 and computing `next_id` on the post-deletion snapshot
assigns 2 again — an id that was previously in use in the run, so ids
ARE reused after deletion. -/
theorem c1_counterexample :
    nextId (removeById [⟨1, "a", "1", "c", "i"⟩, ⟨2, "b", "2", "d", "j"⟩] 2) = 2
    ∧ (2 : Nat) ∈ ([⟨1, "a", "1", "c", "i"⟩, ⟨2, "b", "2", "d", "j"⟩] : List Product).map Product.id := by
  decide

/-- C1 (corrected): after deleting any record, the id `next_id` assigns
is strictly greater than every id present in the post-deletion
snapshot, so it never collides with a surviving record; but it can
equal a previously used id when the deleted record held the maximum
(see the counterexample). -/
theorem c1_amended (ps : List Product) (pid : Nat) (q : Product)
    (hq : q ∈ removeById ps pid) : q.id < nextId (removeById ps pid) :=
  nextId_gt _ _ hq

theorem c1_amended_witness :
    (⟨1, "a", "1", "c", "i"⟩ : Product) ∈ removeById [⟨1, "a", "1", "c", "i"⟩, ⟨2, "b", "2", "d", "j"⟩] 2
    ∧ (⟨1, "a", "1", "c", "i"⟩ : Product).id < nextId (removeById [⟨1, "a", "1", "c", "i"⟩, ⟨2, "b", "2", "d", "j"⟩] 2) :=
  ⟨by decide, c1_amended _ 2 _ (by decide)⟩

/-- C2 (confirmed): `save_products_atomic` writes the full serialized
snapshot to the temp file and renames it over the target on success;
on any failing step it returns abnormally (the exception propagates),
the temp file is gone and the target's content is byte-identical to
its prior content — no half-written snapshot is observable. -/
theorem c2_save_atomic (fs : FS) (products : List Product) (path tmp : String)
    (writeFails replaceFails : Bool) (hne : tmp ≠ path) :
    ((saveProductsAtomic fs products path tmp writeFails replaceFails).ok = true →
      (saveProductsAtomic fs products path tmp writeFails replaceFails).fs path
        = some (serializeProducts products))
    ∧ ((saveProductsAtomic fs products path tmp writeFails replaceFails).ok = false →
      (saveProductsAtomic fs products path tmp writeFails replaceFails).fs path = fs path
      ∧ (saveProductsAtomic fs products path tmp writeFails replaceFails).fs tmp = none)
    ∧ ((saveProductsAtomic fs products path tmp writeFails replaceFails).ok = true
        ↔ writeFails = false ∧ replaceFails = false) := by
  have hpt : ¬ (path = tmp) := fun h => hne h.symm
  cases writeFails <;> cases replaceFails <;>
    simp [saveProductsAtomic, fsUpdate, hpt]

theorem c2_save_atomic_witness :
    ("tmp_x7f2" ≠ "products.json")
    ∧ (((saveProductsAtomic (fun _ => none) [] "products.json" "tmp_x7f2" true false).ok = true →
        (saveProductsAtomic (fun _ => none) [] "products.json" "tmp_x7f2" true false).fs "products.json"
          = some (serializeProducts []))
      ∧ ((saveProductsAtomic (fun _ => none) [] "products.json" "tmp_x7f2" true false).ok = false →
        (saveProductsAtomic (fun _ => none) [] "products.json" "tmp_x7f2" true false).fs "products.json"
          = (fun _ => (none : Option String)) "products.json"
        ∧ (saveProductsAtomic (fun _ => none) [] "products.json" "tmp_x7f2" true false).fs "tmp_x7f2" = none)
      ∧ ((saveProductsAtomic (fun _ => none) [] "products.json" "tmp_x7f2" true false).ok = true
          ↔ true = false ∧ false = false)) :=
  ⟨by decide, c2_save_atomic (fun _ => none) [] "products.json" "tmp_x7f2" true false (by decide)⟩

/-- C7 (confirmed): choosing an id that is present in none of the
current snapshot's records terminates the selection callback with the
Not-found outcome, performs no save, and leaves the stored snapshot
unchanged. -/
theorem c7_ghost_id_not_found (st : List Product) (pid : Nat)
    (saveFails ghConfigured : Bool) (h : ∀ p ∈ st, p.id ≠ pid) :
    productRemoveCallback st pid saveFails ghConfigured
      = ⟨.notFound, st, false, false⟩ := by
  have hf : st.find? (fun p => p.id == pid) = none :=
    List.find?_eq_none.mpr (by simpa using h)
  unfold productRemoveCallback
  rw [hf]

theorem c7_ghost_id_not_found_witness :
    (∀ p ∈ ([⟨1, "a", "1", "c", "i"⟩] : List Product), p.id ≠ 7)
    ∧ productRemoveCallback [⟨1, "a", "1", "c", "i"⟩] 7 false true
        = ⟨.notFound, [⟨1, "a", "1", "c", "i"⟩], false, false⟩ :=
  ⟨by decide, c7_ghost_id_not_found _ 7 false true (by decide)⟩

/-- C5 (confirmed): with a truthy token, a 404 metadata fetch is not an
error — the write is submitted carrying no version token (a create); a
200 fetch that yields a sha leads to a write carrying that sha (an
update); any other fetch status returns a failure with no write
submitted. -/
theorem c5_mirror_fetch (tok : String) (htok : tok ≠ "")
    (getShaBody : Option String) (getText putText : String) (putStatus : Nat) :
    ((githubUpdateFile (some tok) 404 getShaBody getText putStatus putText).putCalled = true
      ∧ (githubUpdateFile (some tok) 404 getShaBody getText putStatus putText).putSha = none
      ∧ ((githubUpdateFile (some tok) 404 getShaBody getText putStatus putText).ok
          = (putStatus == 200 || putStatus == 201)))
    ∧ (∀ s : String, s ≠ "" →
        (githubUpdateFile (some tok) 200 (some s) getText putStatus putText).putCalled = true
        ∧ (githubUpdateFile (some tok) 200 (some s) getText putStatus putText).putSha = some s
        ∧ ((githubUpdateFile (some tok) 200 (some s) getText putStatus putText).ok
            = (putStatus == 200 || putStatus == 201)))
    ∧ (∀ gs : Nat, gs ≠ 200 → gs ≠ 404 →
        githubUpdateFile (some tok) gs getShaBody getText putStatus putText
          = ⟨false, s!"GitHub GET returned {gs}: {getText}", false, none⟩) := by
  have htr : strTruthy (some tok) = true := by
    simp [strTruthy, String.isEmpty_iff, htok]
  refine ⟨?_, ?_, ?_⟩
  · simp only [githubUpdateFile, htr]
    by_cases hp : (putStatus == 200 || putStatus == 201) = true <;>
      simp [ghPut, strTruthy, hp]
  · intro s hs
    have hstr : strTruthy (some s) = true := by
      simp [strTruthy, String.isEmpty_iff, hs]
    simp only [githubUpdateFile, htr]
    by_cases hp : (putStatus == 200 || putStatus == 201) = true <;>
      simp [ghPut, hstr, hp]
  · intro gs h200 h404
    have hg1 : (gs == 200) = false := by simpa using h200
    have hg2 : (gs == 404) = false := by simpa using h404
    simp [githubUpdateFile, htr, hg1, hg2]

theorem c5_mirror_fetch_witness :
    ("tkn" ≠ "")
    ∧ (githubUpdateFile (some "tkn") 404 (some "ignored") "gt" 201 "pt").putCalled = true
    ∧ (githubUpdateFile (some "tkn") 404 (some "ignored") "gt" 201 "pt").putSha = none
    ∧ ("abc123" ≠ "")
    ∧ (githubUpdateFile (some "tkn") 200 (some "abc123") "gt" 201 "pt").putSha = some "abc123"
    ∧ ((500 : Nat) ≠ 200)
    ∧ ((500 : Nat) ≠ 404)
    ∧ (githubUpdateFile (some "tkn") 500 (some "ignored") "gt" 201 "pt").putCalled = false :=
  ⟨by decide,
   ((c5_mirror_fetch "tkn" (by decide) (some "ignored") "gt" "pt" 201).1).1,
   ((c5_mirror_fetch "tkn" (by decide) (some "ignored") "gt" "pt" 201).1).2.1,
   by decide,
   ((c5_mirror_fetch "tkn" (by decide) (some "ignored") "gt" "pt" 201).2.1 "abc123" (by decide)).2.1,
   by decide, by decide,
   by rw [(c5_mirror_fetch "tkn" (by decide) (some "ignored") "gt" "pt" 201).2.2 500 (by decide) (by decide)]⟩

/-- C10 (confirmed): when the metadata fetch returns 200 but no sha can
be extracted from the body, `github_update_file` does not fail: it
submits the write with no version token (as a create), and the overall
result is decided by the PUT status alone. -/
theorem c10_no_sha_create (tok : String) (htok : tok ≠ "")
    (getText putText : String) (putStatus : Nat) :
    (githubUpdateFile (some tok) 200 none getText putStatus putText).putCalled = true
    ∧ (githubUpdateFile (some tok) 200 none getText putStatus putText).putSha = none
    ∧ ((githubUpdateFile (some tok) 200 none getText putStatus putText).ok
        = (putStatus == 200 || putStatus == 201)) := by
  have htr : strTruthy (some tok) = true := by
    simp [strTruthy, String.isEmpty_iff, htok]
  simp only [githubUpdateFile, htr]
  by_cases hp : (putStatus == 200 || putStatus == 201) = true <;>
    simp [ghPut, strTruthy, hp]

theorem c10_no_sha_create_witness :
    ("tkn2" ≠ "")
    ∧ ((githubUpdateFile (some "tkn2") 200 none "gt" 200 "pt").putCalled = true
      ∧ (githubUpdateFile (some "tkn2") 200 none "gt" 200 "pt").putSha = none
      ∧ ((githubUpdateFile (some "tkn2") 200 none "gt" 200 "pt").ok
          = ((200 : Nat) == 200 || (200 : Nat) == 201))) :=
  ⟨by decide, c10_no_sha_create "tkn2" (by decide) "gt" "pt" 200⟩

/-- C8 (confirmed): the offered candidate list is the snapshot sorted
ascending by id truncated to 25: its length is `min 25 n`, it is
sorted by id, every offered record is a record of the snapshot, and a
30-record snapshot yields exactly 25 candidates. -/
theorem c8_offered_capped (st : List Product) :
    (productRemoveOffered st).length = min 25 st.length
    ∧ (productRemoveOffered st).Pairwise (fun a b => a.id ≤ b.id)
    ∧ (∀ q ∈ productRemoveOffered st, q ∈ st)
    ∧ (st.length = 30 → (productRemoveOffered st).length = 25) := by
  have hlen : (productRemoveOffered st).length = min 25 st.length := by
    simp [productRemoveOffered, List.length_take, List.length_mergeSort]
  refine ⟨hlen, ?_, ?_, ?_⟩
  · have hs := @List.sorted_mergeSort Product
      (fun a b : Product => decide (a.id ≤ b.id))
      (fun a b c hab hbc => by
        simp only [decide_eq_true_eq] at *; omega)
      (fun a b => by
        simp only [Bool.or_eq_true, decide_eq_true_eq]; omega)
      st
    have hp : (st.mergeSort (fun a b => a.id ≤ b.id)).Pairwise
        (fun a b : Product => a.id ≤ b.id) := by
      refine hs.imp ?_
      intro a b h
      simpa using h
    exact hp.sublist (List.take_sublist _ _)
  · intro q hq
    have h1 : q ∈ st.mergeSort (fun a b => a.id ≤ b.id) :=
      (List.take_sublist _ _).mem hq
    exact (List.mergeSort_perm st _).mem_iff.mp h1
  · intro h30
    rw [hlen, h30]
    decide

theorem c8_offered_capped_witness :
    ((List.range 30).map (fun i => (⟨i + 1, "p", "1", "c", "img"⟩ : Product))).length = 30
    ∧ (productRemoveOffered
        ((List.range 30).map (fun i => (⟨i + 1, "p", "1", "c", "img"⟩ : Product)))).length = 25 :=
  ⟨by simp, (c8_offered_capped _).2.2.2 (by simp)⟩


lemma localRelPath_eq (s : String) : localRelPath s = "images/" ++ s := by
  unfold localRelPath lstripDotSlash
  have h : ("images/" ++ s).data = 'i' :: ("mages/".data ++ s.data) := by
    rw [String.data_append]; rfl
  refine String.ext ?_
  show (("images/" ++ s).data.dropWhile fun c => c = '.' || c = '/') = ("images/" ++ s).data
  rw [h]
  simp [List.dropWhile_cons]

lemma productAdd_valid (st : List Product) (image : Attachment)
    (name price category : String) (now : Nat) (g1 g2 : Bool) (o r b : String)
    (hsz : image.size ≤ maxSize)
    (hext : splitextExt (strLower image.filename) ∈ ALLOWED_EXT) :
    productAdd st image name price category now false false g1 g2 o r b
      = ⟨.productAdded (nextId st)
            (if g1 && g2 then
              "https://raw.githubusercontent.com/" ++ o ++ "/" ++ r ++ "/" ++ b
                ++ "/images/" ++ madeFilename name now (splitextExt (strLower image.filename))
             else image.url),
          st ++ [⟨nextId st, name, price, category,
                  localRelPath (madeFilename name now (splitextExt (strLower image.filename)))⟩],
          true, g1, g1⟩ := by
  have hns : ¬ (image.size > maxSize) := by omega
  simp [productAdd, attachmentTruthy, hns, hext]

/-- C3 (confirmed): attachment validation rejects a declared size
strictly over 5 MiB first — for every filename, so before the
extension is examined — with a message containing the actual size and
the limit; a conforming size with an extension outside the allow-list
is rejected with the message listing the allowed set; an attachment
passing all checks is written locally and the stored record carries
the local relative path under `images/`. -/
theorem c3_validation_order (st : List Product) (image : Attachment)
    (name price category : String) (now : Nat) (f1 f2 g1 g2 : Bool) (o r b : String) :
    (image.size > maxSize →
      productAdd st image name price category now f1 f2 g1 g2 o r b
        = ⟨.fileTooLarge (tooLargeMsg image.size), st, false, false, false⟩)
    ∧ (∃ pre post, (tooLargeMsg image.size).data
        = pre ++ (toString image.size).data ++ post)
    ∧ (∃ pre post, (tooLargeMsg image.size).data
        = pre ++ (toString maxSize).data ++ post)
    ∧ (¬ (image.size > maxSize) → splitextExt (strLower image.filename) ∉ ALLOWED_EXT →
      productAdd st image name price category now f1 f2 g1 g2 o r b
        = ⟨.invalidFileType invalidTypeMsg, st, false, false, false⟩)
    ∧ (∀ e ∈ ALLOWED_EXT, ∃ pre post, invalidTypeMsg.data = pre ++ e.data ++ post)
    ∧ (¬ (image.size > maxSize) → splitextExt (strLower image.filename) ∈ ALLOWED_EXT →
        (productAdd st image name price category now false false g1 g2 o r b).imageWritten = true
        ∧ (productAdd st image name price category now false false g1 g2 o r b).products
            = st ++ [⟨nextId st, name, price, category,
                "images/" ++ madeFilename name now (splitextExt (strLower image.filename))⟩]) := by
  refine ⟨?_, ?_, ?_, ?_, ?_, ?_⟩
  · intro h
    simp [productAdd, attachmentTruthy, h]
  · refine ⟨"Image is ".data,
      (" bytes — max allowed is " ++ toString maxSize ++ " bytes.").data, ?_⟩
    simp [tooLargeMsg, String.data_append]
  · refine ⟨("Image is " ++ toString image.size ++ " bytes — max allowed is ").data,
      " bytes.".data, ?_⟩
    simp [tooLargeMsg, String.data_append]
  · intro h1 h2
    simp [productAdd, attachmentTruthy, h1, h2]
  · intro e he
    simp only [ALLOWED_EXT, List.mem_cons, List.not_mem_nil, or_false] at he
    rcases he with rfl | rfl | rfl | rfl | rfl
    · exact ⟨"Allowed extensions: .gif, .jpeg, .jpg, ".data, ", .webp".data, by decide⟩
    · exact ⟨"Allowed extensions: .gif, .jpeg, ".data, ", .png, .webp".data, by decide⟩
    · exact ⟨"Allowed extensions: .gif, ".data, ", .jpg, .png, .webp".data, by decide⟩
    · exact ⟨"Allowed extensions: .gif, .jpeg, .jpg, .png, ".data, "".data, by decide⟩
    · exact ⟨"Allowed extensions: ".data, ", .jpeg, .jpg, .png, .webp".data, by decide⟩
  · intro h1 h2
    have hsz : image.size ≤ maxSize := by omega
    rw [productAdd_valid st image name price category now g1 g2 o r b hsz h2]
    simp [localRelPath_eq]

theorem c3_validation_order_witness :
    ((6291456 : Nat) > maxSize
      ∧ productAdd [] ⟨6291456, "b.png", [], "u"⟩ "x" "1" "c" 5 false false false false "o" "r" "b"
          = ⟨.fileTooLarge (tooLargeMsg 6291456), [], false, false, false⟩)
    ∧ (¬ ((10240 : Nat) > maxSize)
      ∧ splitextExt (strLower "a.PNG") ∈ ALLOWED_EXT
      ∧ (productAdd [] ⟨10240, "a.PNG", [], "u"⟩ "x" "1" "c" 5 false false false false "o" "r" "b").products
          = [] ++ [⟨nextId [], "x", "1", "c",
              "images/" ++ madeFilename "x" 5 (splitextExt (strLower "a.PNG"))⟩]) :=
  ⟨⟨by decide,
    (c3_validation_order [] ⟨6291456, "b.png", [], "u"⟩ "x" "1" "c" 5 false false false false "o" "r" "b").1
      (by decide)⟩,
   ⟨by decide, by decide,
    ((c3_validation_order [] ⟨10240, "a.PNG", [], "u"⟩ "x" "1" "c" 5 false false false false "o" "r" "b").2.2.2.2.2
      (by decide) (by decide)).2⟩⟩

/-- C4 counterexample: a 0-byte `.png` attachment passes validation —
the product is added and the empty payload is persisted, so the code
does not reject an empty payload. -/
theorem c4_counterexample :
    (productAdd [] ⟨0, "a.png", [], "u"⟩ "x" "1" "c" 5 false false false false "o" "r" "b").response
      = .productAdded 1 "u"
    ∧ (productAdd [] ⟨0, "a.png", [], "u"⟩ "x" "1" "c" 5 false false false false "o" "r" "b").products
      = [⟨1, "x", "1", "c", "images/x_5.png"⟩]
    ∧ (productAdd [] ⟨0, "a.png", [], "u"⟩ "x" "1" "c" 5 false false false false "o" "r" "b").imageWritten = true
    ∧ (⟨0, "a.png", [], "u"⟩ : Attachment).content = [] := by
  decide

/-- C4 (corrected): the presence check `if not image` tests Python
truthiness of the attachment object, which always holds, and the
payload bytes are never inspected by validation: `product_add` behaves
identically on an empty payload, and with a conforming size and
extension the empty payload is persisted and the product added. -/
theorem c4_empty_payload_accepted (st : List Product) (image : Attachment)
    (name price category : String) (now : Nat) (f1 f2 g1 g2 : Bool) (o r b : String) :
    (productAdd st { image with content := [] } name price category now f1 f2 g1 g2 o r b
      = productAdd st image name price category now f1 f2 g1 g2 o r b)
    ∧ (image.size ≤ maxSize → splitextExt (strLower image.filename) ∈ ALLOWED_EXT →
        (productAdd st { image with content := [] } name price category now false false g1 g2 o r b).products
          = st ++ [⟨nextId st, name, price, category,
              localRelPath (madeFilename name now (splitextExt (strLower image.filename)))⟩]) := by
  constructor
  · rfl
  · intro hsz hext
    rw [productAdd_valid st { image with content := [] } name price category now g1 g2 o r b hsz hext]

theorem c4_empty_payload_accepted_witness :
    ((10240 : Nat) ≤ maxSize ∧ splitextExt (strLower "a.png") ∈ ALLOWED_EXT)
    ∧ (productAdd [] { (⟨10240, "a.png", [7], "u"⟩ : Attachment) with content := [] }
          "x" "1" "c" 5 false false false false "o" "r" "b").products
        = [] ++ [⟨nextId [], "x", "1", "c",
            localRelPath (madeFilename "x" 5 (splitextExt (strLower "a.png")))⟩] :=
  ⟨⟨by decide, by decide⟩,
   (c4_empty_payload_accepted [] ⟨10240, "a.png", [7], "u"⟩ "x" "1" "c" 5 false false false false "o" "r" "b").2
     (by decide) (by decide)⟩

/-- C6 (confirmed): when `save_products_atomic` fails during an add or
a remove, the operation reports the local-persistence failure, the
stored snapshot is unchanged, and no GitHub mirror write is attempted
afterwards — neither for the snapshot nor for the image asset. -/
theorem c6_local_failure_blocks_mirror (st : List Product) (image : Attachment)
    (name price category : String) (now : Nat) (g1 g2 : Bool) (o r b : String) (pid : Nat)
    (hsz : image.size ≤ maxSize)
    (hext : splitextExt (strLower image.filename) ∈ ALLOWED_EXT)
    (hpid : ∃ p ∈ st, p.id = pid) :
    productAdd st image name price category now false true g1 g2 o r b
      = ⟨.productSaveFailed, st, true, false, false⟩
    ∧ productRemoveCallback st pid true g1 = ⟨.deleteFailed, st, true, false⟩ := by
  constructor
  · have hns : ¬ (image.size > maxSize) := by omega
    simp [productAdd, attachmentTruthy, hns, hext]
  · obtain ⟨p, hp, hpide⟩ := hpid
    have hsome : (st.find? (fun x => x.id == pid)).isSome := by
      rw [List.find?_isSome]
      exact ⟨p, hp, by simp [hpide]⟩
    obtain ⟨q, hq⟩ := Option.isSome_iff_exists.mp hsome
    simp [productRemoveCallback, hq]

theorem c6_local_failure_blocks_mirror_witness :
    ((10240 : Nat) ≤ maxSize
      ∧ splitextExt (strLower "a.png") ∈ ALLOWED_EXT
      ∧ ∃ p ∈ ([⟨3, "n", "1", "c", "i"⟩] : List Product), p.id = 3)
    ∧ productAdd [⟨3, "n", "1", "c", "i"⟩] ⟨10240, "a.png", [7], "u"⟩ "x" "1" "c" 5 false true true true "o" "r" "b"
        = ⟨.productSaveFailed, [⟨3, "n", "1", "c", "i"⟩], true, false, false⟩
    ∧ productRemoveCallback [⟨3, "n", "1", "c", "i"⟩] 3 true true
        = ⟨.deleteFailed, [⟨3, "n", "1", "c", "i"⟩], true, false⟩ :=
  ⟨⟨by decide, by decide, ⟨⟨3, "n", "1", "c", "i"⟩, by decide, rfl⟩⟩,
   (c6_local_failure_blocks_mirror [⟨3, "n", "1", "c", "i"⟩] ⟨10240, "a.png", [7], "u"⟩
      "x" "1" "c" 5 true true "o" "r" "b" 3 (by decide) (by decide)
      ⟨⟨3, "n", "1", "c", "i"⟩, by decide, rfl⟩).1,
   (c6_local_failure_blocks_mirror [⟨3, "n", "1", "c", "i"⟩] ⟨10240, "a.png", [7], "u"⟩
      "x" "1" "c" 5 true true "o" "r" "b" 3 (by decide) (by decide)
      ⟨⟨3, "n", "1", "c", "i"⟩, by decide, rfl⟩).2⟩

end GardenMart
